import Mathlib

/-!
Verification development for `deer/train.py`: a training loop that evaluates an
RNN-style recurrence over whole sequences with a parallel fixed-point solver
(`deer.seq1d.seq1d`), warm-started from the trajectories of the previous
training step.

States, inputs, parameters and readout outputs are abstract types; sequences
and batches are lists; the numeric scalars appearing in the loss are exact
rationals.  External collaborators (the optimizer, `optax.apply_updates`, the
softmax cross-entropy kernel, and the automatic-differentiation gradient) are
opaque parameters of the embedding, exactly as the spec scopes them out.
-/

namespace Deer

section Defs

variable {S I P Q O Ost : Type}

/-- Naive position-by-position sequential evaluation of the recurrence:
`T[i] = f (T[i-1] or y0) inputs[i] p`, evaluated left to right.  This is the
sequential reference semantics the spec compares the solver against. -/
def seqEval (f : S → I → P → S) (p : P) : S → List I → List S
  | _, [] => []
  | y, x :: xs => f y x p :: seqEval f p (f y x p) xs

/-- One parallel refinement pass over the whole trajectory: every position is
recomputed in one shot from the current guess,
`newT[i] = f (t[i-1] or y0) inputs[i] p`. -/
def substAll (f : S → I → P → S) (p : P) (y0 : S) (inputs : List I)
    (t : List S) : List S :=
  List.zipWith (fun prev x => f prev x p) (y0 :: t) inputs

/-- Iterate the parallel pass until the update is zero (exact-arithmetic
convergence) or the iteration budget is exhausted. -/
def seq1dIter [DecidableEq S] (f : S → I → P → S) (p : P) (y0 : S)
    (inputs : List I) : Nat → List S → List S
  | 0, t => t
  | fuel + 1, t =>
    let tn := substAll f p y0 inputs t
    if tn = t then t else seq1dIter f p y0 inputs fuel tn

/-- Modelled from the spec: the module `deer.seq1d` (function `seq1d`, the
ParallelRecurrenceSolver of spec section 4.1) is imported by `train.py` but is
not part of the visible source.  Per the spec it treats the recurrence as a
fixed-point system over the whole trajectory, repeatedly recomputing all
positions in parallel from the current guess and stopping when the update
magnitude falls below the tolerance (zero, in exact arithmetic) or a maximum
iteration count is reached; the iteration budget is the sequence length, which
is enough for the full-substitution pass to converge from any initial guess. -/
def seq1d [DecidableEq S] (f : S → I → P → S) (y0 : S) (inputs : List I)
    (p : P) (yinit_guess : List S) : List S :=
  seq1dIter f p y0 inputs inputs.length yinit_guess

/-- The only exception `rollout` can raise on dispatch. -/
inductive RolloutError : Type where
  | notImplementedError : RolloutError
deriving DecidableEq

/-- `model_func(carry, inputs, params) = model.apply(params, carry, inputs)[0]`:
the recurrent cell returns a pair and the rollout keeps its first component.
`modelApply` embeds the opaque `model.apply`. -/
def model_func (modelApply : P → S → I → S × S) : S → I → P → S :=
  fun carry inputs params => (modelApply params carry inputs).1

/-- `rollout` from `train.py`: dispatch on the method string; on
`"deer_rnn"` solve the recurrence with `seq1d` and apply the readout MLP to the
final trajectory entry `y[-1, :]`; otherwise raise `NotImplementedError`.
`nclasses` is accepted and unused, as in the source. -/
def rollout [DecidableEq S] (modelApply : P → S → I → S × S) (params : P)
    (mlpApply : Q → S → O) (mlp_params : Q) (y0 : S) (inputs : List I)
    (yinit_guess : List S) (method : String := "deer_rnn")
    (nclasses : Nat := 10) : Except RolloutError (O × List S) :=
  if method = "deer_rnn" then
    let y := seq1d (model_func modelApply) y0 inputs params yinit_guess
    Except.ok (mlpApply mlp_params (y.getLastD y0), y)
  else
    Except.error RolloutError.notImplementedError

/-- First index of the maximum entry (`jnp.argmax` tie-breaking). -/
def argmaxAux : List ℚ → Nat → Nat → ℚ → Nat
  | [], _, best, _ => best
  | x :: xs, i, best, bestVal =>
    if bestVal < x then argmaxAux xs (i + 1) i x
    else argmaxAux xs (i + 1) best bestVal

/-- `jnp.argmax` over a score vector: index of the first maximal entry. -/
def argmax : List ℚ → Nat
  | [] => 0
  | x :: xs => argmaxAux xs 1 0 x

/-- `jnp.mean` over a batch of scalars. -/
def listMean (l : List ℚ) : ℚ :=
  l.sum / l.length

/-- `compute_metrics` from `train.py`: the loss is the batch mean of the
softmax cross-entropy of logits against integer labels, the accuracy is the
batch mean of the indicator `argmax logits == label`.  `sce` embeds the opaque
`optax.softmax_cross_entropy_with_integer_labels`. -/
def compute_metrics (sce : List ℚ → Nat → ℚ) (logits : List (List ℚ))
    (labels : List Nat) : ℚ × ℚ :=
  let loss := listMean ((logits.zip labels).map (fun z => sce z.1 z.2))
  let accuracy := listMean ((logits.zip labels).map
    (fun z => if argmax z.1 = z.2 then (1 : ℚ) else 0))
  (loss, accuracy)

/-- The `jax.vmap(rollout, in_axes=(None, None, None, None, 0, 0, 0))` call in
`loss_fn`: `rollout` applied slot-by-slot across the batch axis of the initial
states, inputs and guesses, with `method` and `nclasses` left at their
defaults. -/
def rollout_batch [DecidableEq S] (modelApply : P → S → I → S × S) (params : P)
    (mlpApply : Q → S → O) (mlp_params : Q) (y0s : List S)
    (xs : List (List I)) (guesses : List (List S)) :
    List (Except RolloutError (O × List S)) :=
  (y0s.zip (xs.zip guesses)).map
    (fun t => rollout modelApply params mlpApply mlp_params t.1 t.2.1 t.2.2)

/-- Collect a list of fallible results, propagating the first exception, as
the traced Python computation would. -/
def sequenceExcept {E A : Type} : List (Except E A) → Except E (List A)
  | [] => Except.ok []
  | e :: es =>
    match e with
    | Except.error err => Except.error err
    | Except.ok a =>
      match sequenceExcept es with
      | Except.error err => Except.error err
      | Except.ok as => Except.ok (a :: as)

/-- `loss_fn` from `train.py`: vmap `rollout` over the batch, then
`compute_metrics` on the predictions against the labels; returns
`(loss, (accuracy, trajectories))`.  The `method` argument is received but,
as in the source, never forwarded to `rollout`. -/
def loss_fn [DecidableEq S] (modelApply : P → S → I → S × S) (params : P)
    (mlpApply : Q → S → List ℚ) (mlp_params : Q) (y0 : List S)
    (batch : List (List I) × List Nat) (all_yinit_guess : List (List S))
    (sce : List ℚ → Nat → ℚ) (method : String := "deer_rnn") :
    Except RolloutError (ℚ × (ℚ × List (List S))) :=
  match sequenceExcept (rollout_batch modelApply params mlpApply mlp_params
      y0 batch.1 all_yinit_guess) with
  | Except.error e => Except.error e
  | Except.ok results =>
    let ypred := results.map Prod.fst
    let yinit_guess := results.map Prod.snd
    let m := compute_metrics sce ypred batch.2
    Except.ok (m.1, (m.2, yinit_guess))

/-- The combined parameter pytree `{"params": ..., "mlp_params": ...}`. -/
structure CombinedParams (P Q : Type) where
  params : P
  mlp_params : Q

/-- The optax optimizer: `update(grads, opt_state) -> (updates, opt_state)`.
Opaque external collaborator. -/
structure GradientTransformation (P Q Ost : Type) where
  update : CombinedParams P Q → Ost → CombinedParams P Q × Ost

/-- `jax.value_and_grad(f, argnums=(1, 3), has_aux=True)`: the value component
is exactly `f`'s value; the gradient is the opaque reverse-mode derivative
`gradOf`, applied to exactly the same closure and primal point. -/
def value_and_grad {A : Type}
    (gradOf : (P → Q → Except RolloutError A) → P → Q → P × Q)
    (f : P → Q → Except RolloutError A) (p : P) (q : Q) :
    Except RolloutError (A × (P × Q)) :=
  match f p q with
  | Except.error e => Except.error e
  | Except.ok v => Except.ok (v, gradOf f p q)

/-- `update_step` from `train.py`: differentiate `loss_fn` with respect to the
step-function parameters and the readout parameters at the current combined
parameters, feed the gradient pytree to the optimizer, apply the updates, and
return the new parameters together with the metrics and trajectories from the
forward pass. -/
def update_step [DecidableEq S] (modelApply : P → S → I → S × S)
    (mlpApply : Q → S → List ℚ)
    (optimizer : GradientTransformation P Q Ost)
    (applyUpdates : CombinedParams P Q → CombinedParams P Q → CombinedParams P Q)
    (gradOf : (P → Q → Except RolloutError (ℚ × (ℚ × List (List S)))) → P → Q → P × Q)
    (sce : List ℚ → Nat → ℚ)
    (combined_params : CombinedParams P Q) (opt_state : Ost)
    (batch : List (List I) × List Nat) (y0 : List S)
    (all_yinit_guess : List (List S)) (method : String := "deer_rnn") :
    Except RolloutError (CombinedParams P Q × Ost × ℚ × ℚ × List (List S)) :=
  match value_and_grad gradOf
      (fun p q => loss_fn modelApply p mlpApply q y0 batch all_yinit_guess sce method)
      combined_params.params combined_params.mlp_params with
  | Except.error e => Except.error e
  | Except.ok r =>
    let grad := r.2
    let upd := optimizer.update ⟨grad.1, grad.2⟩ opt_state
    let cp2 := applyUpdates combined_params upd.1
    Except.ok (cp2, upd.2, r.1.1, r.1.2.1, r.1.2.2)

/-- `jnp.zeros((n,))`. -/
def zeros1 (n : Nat) : List ℚ := List.replicate n 0

/-- `jnp.zeros((a, b))`. -/
def zeros2 (a b : Nat) : List (List ℚ) := List.replicate a (zeros1 b)

/-- `jnp.zeros((a, b, c))`. -/
def zeros3 (a b c : Nat) : List (List (List ℚ)) := List.replicate a (zeros2 b c)

/-- The mutable training state threaded through `main`'s loop: the combined
parameters, the optimizer state and the warm-start trajectory array.  `y0` is
not part of it: the source never reassigns it. -/
structure TrainState (P Q Ost : Type) where
  combined_params : CombinedParams P Q
  opt_state : Ost
  yinit_guess : List (List (List ℚ))

/-- One iteration of `main`'s training loop: call `update_step` with the
always-zero `y0` and the carried warm-start array, omitting the `method`
argument (so it takes its default `"deer_rnn"`), and thread the returned
parameters, optimizer state and trajectories into the next state.
`argsMethod` is the parsed `--method` option; `main` stores it and never
forwards it, so it is unused here exactly as in the source. -/
def train_step (modelApply : P → List ℚ → List ℚ → List ℚ × List ℚ)
    (mlpApply : Q → List ℚ → List ℚ)
    (optimizer : GradientTransformation P Q Ost)
    (applyUpdates : CombinedParams P Q → CombinedParams P Q → CombinedParams P Q)
    (gradOf : (P → Q → Except RolloutError (ℚ × (ℚ × List (List (List ℚ))))) → P → Q → P × Q)
    (sce : List ℚ → Nat → ℚ) (argsMethod : String) (batch_size nstates : Nat)
    (st : TrainState P Q Ost) (batch : List (List (List ℚ)) × List Nat) :
    Except RolloutError (TrainState P Q Ost × ℚ × ℚ) :=
  match update_step modelApply mlpApply optimizer applyUpdates gradOf sce
      st.combined_params st.opt_state batch (zeros2 batch_size nstates)
      st.yinit_guess with
  | Except.error e => Except.error e
  | Except.ok r => Except.ok (⟨r.1, r.2.1, r.2.2.2.2⟩, r.2.2.1, r.2.2.2.1)

/-- `main`'s training loop over a list of prepared batches. -/
def train_loop (modelApply : P → List ℚ → List ℚ → List ℚ × List ℚ)
    (mlpApply : Q → List ℚ → List ℚ)
    (optimizer : GradientTransformation P Q Ost)
    (applyUpdates : CombinedParams P Q → CombinedParams P Q → CombinedParams P Q)
    (gradOf : (P → Q → Except RolloutError (ℚ × (ℚ × List (List (List ℚ))))) → P → Q → P × Q)
    (sce : List ℚ → Nat → ℚ) (argsMethod : String) (batch_size nstates : Nat) :
    List (List (List (List ℚ)) × List Nat) → TrainState P Q Ost →
    Except RolloutError (TrainState P Q Ost)
  | [], st => Except.ok st
  | b :: bs, st =>
    match train_step modelApply mlpApply optimizer applyUpdates gradOf sce
        argsMethod batch_size nstates st b with
    | Except.error e => Except.error e
    | Except.ok r => train_loop modelApply mlpApply optimizer applyUpdates
        gradOf sce argsMethod batch_size nstates bs r.1

/-- The initial training state built in `main`: fresh parameters and optimizer
state, warm-start array `jnp.zeros((batch_size, nsequence, nstates))`. -/
def init_train_state (combined_params : CombinedParams P Q) (opt_state : Ost)
    (batch_size nsequence nstates : Nat) : TrainState P Q Ost :=
  ⟨combined_params, opt_state, zeros3 batch_size nsequence nstates⟩

/-- The per-slot trajectories the batched rollout produces: slot `k` is solved
from its own initial state, inputs and guess with the shared parameters. -/
def batch_trajectories [DecidableEq S] (modelApply : P → S → I → S × S)
    (params : P) (y0s : List S) (xs : List (List I))
    (guesses : List (List S)) : List (List S) :=
  (y0s.zip (xs.zip guesses)).map
    (fun t => seq1d (model_func modelApply) t.1 t.2.1 params t.2.2)

/-- The per-slot logits the batched rollout produces: the readout applied to
the final entry of each slot's trajectory. -/
def batch_logits [DecidableEq S] (modelApply : P → S → I → S × S) (params : P)
    (mlpApply : Q → S → List ℚ) (mlp_params : Q) (y0s : List S)
    (xs : List (List I)) (guesses : List (List S)) : List (List ℚ) :=
  (y0s.zip (xs.zip guesses)).map
    (fun t => mlpApply mlp_params
      ((seq1d (model_func modelApply) t.1 t.2.1 params t.2.2).getLastD t.1))

end Defs

namespace Ex

/-- Concrete recurrent cell for witnesses: scalar state, `(p*s + x, s)`. -/
def exStep : ℚ → ℚ → ℚ → ℚ × ℚ := fun p s x => (p * s + x, s)

/-- Concrete readout for witnesses. -/
def exReadout : ℚ → ℚ → List ℚ := fun q s => [s + q]

/-- Concrete vector-state cell for training-level witnesses. -/
def exStepV : ℚ → List ℚ → List ℚ → List ℚ × List ℚ :=
  fun _ s x => (List.zipWith (fun a b => a + b) s x, s)

/-- Concrete vector readout for training-level witnesses. -/
def exReadoutV : ℚ → List ℚ → List ℚ := fun _ s => s

/-- Concrete stand-in for the softmax cross-entropy kernel. -/
def exSce : List ℚ → Nat → ℚ := fun l n => l.getD n 0

/-- Concrete stand-in optimizer. -/
def exOpt : GradientTransformation ℚ ℚ Unit := ⟨fun g o => (g, o)⟩

/-- Concrete stand-in for `optax.apply_updates`. -/
def exApplyUpdates : CombinedParams ℚ ℚ → CombinedParams ℚ ℚ → CombinedParams ℚ ℚ :=
  fun cp u => ⟨cp.params + u.params, cp.mlp_params + u.mlp_params⟩

/-- Concrete stand-in gradient oracle. -/
def exGradOf :
    (ℚ → ℚ → Except RolloutError (ℚ × (ℚ × List (List (List ℚ))))) → ℚ → ℚ → ℚ × ℚ :=
  fun _ _ _ => (0, 0)

end Ex

section Lemmas

variable {S I P Q O Ost : Type}

theorem seqEval_length (f : S → I → P → S) (p : P) :
    ∀ (y0 : S) (inputs : List I), (seqEval f p y0 inputs).length = inputs.length := by
  intro y0 inputs
  induction inputs generalizing y0 with
  | nil => rfl
  | cons x xs ih => simpa [seqEval] using ih (f y0 x p)

theorem substAll_length (f : S → I → P → S) (p : P) (y0 : S) (inputs : List I)
    (t : List S) (h : t.length = inputs.length) :
    (substAll f p y0 inputs t).length = inputs.length := by
  simp [substAll, h]

/-- A fixed point of the parallel pass is exactly the sequential evaluation. -/
theorem substAll_fixed_eq_seqEval (f : S → I → P → S) (p : P) :
    ∀ (inputs : List I) (y0 : S) (t : List S),
      substAll f p y0 inputs t = t → t = seqEval f p y0 inputs := by
  intro inputs
  induction inputs with
  | nil =>
    intro y0 t h
    simpa [substAll, seqEval] using h.symm
  | cons x xs ih =>
    intro y0 t h
    have ht : t = f y0 x p :: List.zipWith (fun prev x => f prev x p) t xs := by
      simpa [substAll] using h.symm
    have h2 : substAll f p (f y0 x p) xs (List.zipWith (fun prev x => f prev x p) t xs)
        = List.zipWith (fun prev x => f prev x p) t xs := by
      unfold substAll
      conv_rhs => rw [ht]
    have h3 := ih (f y0 x p) _ h2
    rw [ht, h3]
    simp [seqEval]

/-- The parallel pass extends agreement with the sequential evaluation by one
position. -/
theorem substAll_take (f : S → I → P → S) (p : P) :
    ∀ (inputs : List I) (y0 : S) (t : List S) (j : Nat),
      t.length = inputs.length →
      List.take j t = List.take j (seqEval f p y0 inputs) →
      List.take (j + 1) (substAll f p y0 inputs t)
        = List.take (j + 1) (seqEval f p y0 inputs) := by
  intro inputs
  induction inputs with
  | nil =>
    intro y0 t j _ _
    simp [substAll, seqEval]
  | cons x xs ih =>
    intro y0 t j hlen htake
    match t with
    | [] => simp at hlen
    | a :: t2 =>
      have hlen2 : t2.length = xs.length := by simpa using hlen
      match j with
      | 0 =>
        simp [substAll, seqEval]
      | k + 1 =>
        have hx : a = f y0 x p ∧ List.take k t2 = List.take k (seqEval f p (f y0 x p) xs) := by
          have := htake
          simp [seqEval] at this
          exact this
        have hrec := ih (f y0 x p) t2 k hlen2 hx.2
        have hsub : substAll f p y0 (x :: xs) (a :: t2)
            = f y0 x p :: substAll f p (f y0 x p) xs t2 := by
          simp [substAll, hx.1]
        rw [hsub]
        simp [seqEval]
        exact hrec

theorem seq1dIter_eq_seqEval [DecidableEq S] (f : S → I → P → S) (p : P)
    (y0 : S) (inputs : List I) :
    ∀ (fuel j : Nat) (t : List S),
      t.length = inputs.length →
      List.take j t = List.take j (seqEval f p y0 inputs) →
      inputs.length ≤ j + fuel →
      seq1dIter f p y0 inputs fuel t = seqEval f p y0 inputs := by
  intro fuel
  induction fuel with
  | zero =>
    intro j t hlen htake hle
    have h1 : List.take j t = t :=
      List.take_of_length_le (by omega)
    have h2 : List.take j (seqEval f p y0 inputs) = seqEval f p y0 inputs :=
      List.take_of_length_le (by rw [seqEval_length]; omega)
    simpa [seq1dIter, h1, h2] using htake
  | succ fuel ih =>
    intro j t hlen htake hle
    by_cases hfix : substAll f p y0 inputs t = t
    · simp only [seq1dIter, hfix, if_pos rfl]
      exact substAll_fixed_eq_seqEval f p inputs y0 t hfix
    · have hstep := substAll_take f p inputs y0 t j hlen htake
      have hlen2 := substAll_length f p y0 inputs t hlen
      simp only [seq1dIter, if_neg hfix]
      exact ih (j + 1) _ hlen2 hstep (by omega)

/-- The solver returns the sequential evaluation exactly, for every initial
guess of matching shape. -/
theorem seq1d_eq_seqEval [DecidableEq S] (f : S → I → P → S) (y0 : S)
    (inputs : List I) (p : P) (yinit_guess : List S)
    (h : yinit_guess.length = inputs.length) :
    seq1d f y0 inputs p yinit_guess = seqEval f p y0 inputs :=
  seq1dIter_eq_seqEval f p y0 inputs inputs.length 0 yinit_guess h (by simp) (by omega)

theorem seq1d_length [DecidableEq S] (f : S → I → P → S) (y0 : S)
    (inputs : List I) (p : P) (yinit_guess : List S)
    (h : yinit_guess.length = inputs.length) :
    (seq1d f y0 inputs p yinit_guess).length = inputs.length := by
  rw [seq1d_eq_seqEval f y0 inputs p yinit_guess h, seqEval_length]

theorem sequenceExcept_map_ok {E A B : Type} (g : B → A) :
    ∀ (l : List B),
      sequenceExcept (l.map (fun b => (Except.ok (g b) : Except E A)))
        = Except.ok (l.map g) := by
  intro l
  induction l with
  | nil => rfl
  | cons b bs ih => simp [sequenceExcept, ih]

theorem getLastD_eq_getD {α : Type} (l : List α) (d : α) :
    l.getLastD d = l.getD (l.length - 1) d := by
  rw [List.getLastD_eq_getLast?, List.getLast?_eq_getElem?,
    List.getD_eq_getElem?_getD]

theorem rollout_deer_rnn [DecidableEq S] (modelApply : P → S → I → S × S)
    (params : P) (mlpApply : Q → S → O) (mlp_params : Q) (y0 : S)
    (inputs : List I) (yinit_guess : List S) :
    rollout modelApply params mlpApply mlp_params y0 inputs yinit_guess
      = Except.ok
          (mlpApply mlp_params
            ((seq1d (model_func modelApply) y0 inputs params yinit_guess).getLastD y0),
           seq1d (model_func modelApply) y0 inputs params yinit_guess) := by
  simp [rollout]

/-- `loss_fn` with the default method never raises and returns the metrics of
the batched logits and the batched trajectories. -/
theorem loss_fn_eq [DecidableEq S] (modelApply : P → S → I → S × S)
    (params : P) (mlpApply : Q → S → List ℚ) (mlp_params : Q) (y0 : List S)
    (batch : List (List I) × List Nat) (all_yinit_guess : List (List S))
    (sce : List ℚ → Nat → ℚ) (method : String) :
    loss_fn modelApply params mlpApply mlp_params y0 batch all_yinit_guess
        sce method
      = Except.ok
          ((compute_metrics sce
              (batch_logits modelApply params mlpApply mlp_params y0 batch.1
                all_yinit_guess) batch.2).1,
           ((compute_metrics sce
              (batch_logits modelApply params mlpApply mlp_params y0 batch.1
                all_yinit_guess) batch.2).2,
            batch_trajectories modelApply params y0 batch.1 all_yinit_guess)) := by
  have hbatch : rollout_batch modelApply params mlpApply mlp_params y0 batch.1
      all_yinit_guess
      = (y0.zip (batch.1.zip all_yinit_guess)).map
          (fun t => Except.ok
            (mlpApply mlp_params
              ((seq1d (model_func modelApply) t.1 t.2.1 params t.2.2).getLastD t.1),
             seq1d (model_func modelApply) t.1 t.2.1 params t.2.2)) := by
    unfold rollout_batch
    refine List.map_congr_left ?_
    intro t _
    exact rollout_deer_rnn modelApply params mlpApply mlp_params t.1 t.2.1 t.2.2
  unfold loss_fn
  rw [hbatch, sequenceExcept_map_ok]
  simp only [batch_logits, batch_trajectories, List.map_map]
  exact rfl

/-- Closed-form evaluation of `update_step`: the forward pass (metrics and
trajectories) is computed from the parameters at entry, the gradient oracle is
applied to the `loss_fn` closure at those same parameters, and the optimizer
updates are applied to the combined parameters. -/
theorem update_step_eq [DecidableEq S] (modelApply : P → S → I → S × S)
    (mlpApply : Q → S → List ℚ) (optimizer : GradientTransformation P Q Ost)
    (applyUpdates : CombinedParams P Q → CombinedParams P Q → CombinedParams P Q)
    (gradOf : (P → Q → Except RolloutError (ℚ × (ℚ × List (List S)))) → P → Q → P × Q)
    (sce : List ℚ → Nat → ℚ) (combined_params : CombinedParams P Q)
    (opt_state : Ost) (batch : List (List I) × List Nat) (y0 : List S)
    (all_yinit_guess : List (List S)) (method : String) :
    update_step modelApply mlpApply optimizer applyUpdates gradOf sce
        combined_params opt_state batch y0 all_yinit_guess method
      = Except.ok
          (applyUpdates combined_params
            (optimizer.update
              ⟨(gradOf
                  (fun p q => loss_fn modelApply p mlpApply q y0 batch
                    all_yinit_guess sce method)
                  combined_params.params combined_params.mlp_params).1,
               (gradOf
                  (fun p q => loss_fn modelApply p mlpApply q y0 batch
                    all_yinit_guess sce method)
                  combined_params.params combined_params.mlp_params).2⟩
              opt_state).1,
           (optimizer.update
              ⟨(gradOf
                  (fun p q => loss_fn modelApply p mlpApply q y0 batch
                    all_yinit_guess sce method)
                  combined_params.params combined_params.mlp_params).1,
               (gradOf
                  (fun p q => loss_fn modelApply p mlpApply q y0 batch
                    all_yinit_guess sce method)
                  combined_params.params combined_params.mlp_params).2⟩
              opt_state).2,
           (compute_metrics sce
              (batch_logits modelApply combined_params.params mlpApply
                combined_params.mlp_params y0 batch.1 all_yinit_guess)
              batch.2).1,
           (compute_metrics sce
              (batch_logits modelApply combined_params.params mlpApply
                combined_params.mlp_params y0 batch.1 all_yinit_guess)
              batch.2).2,
           batch_trajectories modelApply combined_params.params y0 batch.1
             all_yinit_guess) := by
  unfold update_step value_and_grad
  simp only [loss_fn_eq]

/-- Closed-form evaluation of one training-loop iteration: `update_step` is
invoked with the all-zero initial states and the carried warm-start array, and
the produced trajectories replace the warm-start array in the next state. -/
theorem train_step_eq (modelApply : P → List ℚ → List ℚ → List ℚ × List ℚ)
    (mlpApply : Q → List ℚ → List ℚ)
    (optimizer : GradientTransformation P Q Ost)
    (applyUpdates : CombinedParams P Q → CombinedParams P Q → CombinedParams P Q)
    (gradOf : (P → Q → Except RolloutError (ℚ × (ℚ × List (List (List ℚ))))) → P → Q → P × Q)
    (sce : List ℚ → Nat → ℚ) (argsMethod : String) (batch_size nstates : Nat)
    (st : TrainState P Q Ost) (b : List (List (List ℚ)) × List Nat) :
    train_step modelApply mlpApply optimizer applyUpdates gradOf sce argsMethod
        batch_size nstates st b
      = Except.ok
          (⟨applyUpdates st.combined_params
              (optimizer.update
                ⟨(gradOf
                    (fun p q => loss_fn modelApply p mlpApply q
                      (zeros2 batch_size nstates) b st.yinit_guess sce "deer_rnn")
                    st.combined_params.params st.combined_params.mlp_params).1,
                 (gradOf
                    (fun p q => loss_fn modelApply p mlpApply q
                      (zeros2 batch_size nstates) b st.yinit_guess sce "deer_rnn")
                    st.combined_params.params st.combined_params.mlp_params).2⟩
                st.opt_state).1,
            (optimizer.update
                ⟨(gradOf
                    (fun p q => loss_fn modelApply p mlpApply q
                      (zeros2 batch_size nstates) b st.yinit_guess sce "deer_rnn")
                    st.combined_params.params st.combined_params.mlp_params).1,
                 (gradOf
                    (fun p q => loss_fn modelApply p mlpApply q
                      (zeros2 batch_size nstates) b st.yinit_guess sce "deer_rnn")
                    st.combined_params.params st.combined_params.mlp_params).2⟩
                st.opt_state).2,
            batch_trajectories modelApply st.combined_params.params
              (zeros2 batch_size nstates) b.1 st.yinit_guess⟩,
           (compute_metrics sce
              (batch_logits modelApply st.combined_params.params mlpApply
                st.combined_params.mlp_params (zeros2 batch_size nstates) b.1
                st.yinit_guess) b.2).1,
           (compute_metrics sce
              (batch_logits modelApply st.combined_params.params mlpApply
                st.combined_params.mlp_params (zeros2 batch_size nstates) b.1
                st.yinit_guess) b.2).2) := by
  unfold train_step
  rw [update_step_eq]

end Lemmas

section Claims

variable {S I P Q O Ost : Type}

/-- C1: for every step function, parameters, input sequence, and initial
guess (of matching shape), the converged trajectory returned by the parallel
solver invoked in `rollout` equals the trajectory obtained by naive
position-by-position sequential evaluation of the same recurrence from the
same initial state (exactly, hence within any configured tolerance). -/
theorem C1_solver_matches_sequential [DecidableEq S]
    (modelApply : P → S → I → S × S) (params : P) (mlpApply : Q → S → O)
    (mlp_params : Q) (y0 : S) (inputs : List I) (yinit_guess : List S)
    (out : O) (T : List S) (h : yinit_guess.length = inputs.length)
    (hr : rollout modelApply params mlpApply mlp_params y0 inputs yinit_guess
      = Except.ok (out, T)) :
    T = seqEval (model_func modelApply) params y0 inputs := by
  rw [rollout_deer_rnn] at hr
  have hT : T = seq1d (model_func modelApply) y0 inputs params yinit_guess :=
    ((Prod.mk.injEq _ _ _ _).mp (Except.ok.inj hr)).2.symm
  rw [hT]
  exact seq1d_eq_seqEval (model_func modelApply) y0 inputs params yinit_guess h

theorem C1_witness :
    seq1d (model_func Ex.exStep) (0 : ℚ) [1, 1] (1 : ℚ) [0, 0]
        = seqEval (model_func Ex.exStep) (1 : ℚ) (0 : ℚ) [1, 1]
      ∧ seqEval (model_func Ex.exStep) (1 : ℚ) (0 : ℚ) [1, 1] = [1, 2] :=
  ⟨C1_solver_matches_sequential Ex.exStep 1 Ex.exReadout 0 0 [1, 1] [0, 0]
    (Ex.exReadout 0
      ((seq1d (model_func Ex.exStep) (0 : ℚ) [1, 1] (1 : ℚ) [0, 0]).getLastD 0))
    (seq1d (model_func Ex.exStep) (0 : ℚ) [1, 1] (1 : ℚ) [0, 0])
    (by decide) rfl,
   by norm_num [seqEval, model_func, Ex.exStep]⟩

/-- C2: `rollout` with the default method `"deer_rnn"` returns a pair whose
second component is the full solver trajectory, of length `nseq`, and whose
first component is the readout MLP applied to the final trajectory entry
`T[nseq - 1]` only. -/
theorem C2_rollout_readout_of_last [DecidableEq S]
    (modelApply : P → S → I → S × S) (params : P) (mlpApply : Q → S → O)
    (mlp_params : Q) (y0 : S) (inputs : List I) (yinit_guess : List S)
    (h : yinit_guess.length = inputs.length) :
    rollout modelApply params mlpApply mlp_params y0 inputs yinit_guess
        = Except.ok
            (mlpApply mlp_params
              ((seq1d (model_func modelApply) y0 inputs params yinit_guess).getD
                (inputs.length - 1) y0),
             seq1d (model_func modelApply) y0 inputs params yinit_guess)
      ∧ (seq1d (model_func modelApply) y0 inputs params yinit_guess).length
          = inputs.length := by
  have hT := seq1d_length (model_func modelApply) y0 inputs params yinit_guess h
  refine ⟨?_, hT⟩
  have hlast : (seq1d (model_func modelApply) y0 inputs params yinit_guess).getLastD y0
      = (seq1d (model_func modelApply) y0 inputs params yinit_guess).getD
          (inputs.length - 1) y0 := by
    rw [getLastD_eq_getD, hT]
  rw [rollout_deer_rnn, hlast]

theorem C2_witness :
    rollout Ex.exStep (1 : ℚ) Ex.exReadout (0 : ℚ) (0 : ℚ) [1, 1] [0, 0]
        = Except.ok
            (Ex.exReadout 0
              ((seq1d (model_func Ex.exStep) (0 : ℚ) [1, 1] (1 : ℚ) [0, 0]).getD 1 0),
             seq1d (model_func Ex.exStep) (0 : ℚ) [1, 1] (1 : ℚ) [0, 0])
      ∧ (seq1d (model_func Ex.exStep) (0 : ℚ) [1, 1] (1 : ℚ) [0, 0]).length = 2 :=
  C2_rollout_readout_of_last Ex.exStep 1 Ex.exReadout 0 0 [1, 1] [0, 0] (by decide)

/-- C3: the batched rollout (the vmap of `rollout` inside `loss_fn`) produces,
for each batch slot `k`, exactly the result of a separate single-example
`rollout` call on that slot's initial state, inputs and guess with the same
shared parameters: no cross-example interaction. -/
theorem C3_batch_independence [DecidableEq S]
    (modelApply : P → S → I → S × S) (params : P) (mlpApply : Q → S → O)
    (mlp_params : Q) (y0s : List S) (xs : List (List I))
    (guesses : List (List S)) (k : Nat) (a : S) (x : List I) (g : List S)
    (hy : y0s.get? k = some a) (hx : xs.get? k = some x)
    (hg : guesses.get? k = some g) :
    (rollout_batch modelApply params mlpApply mlp_params y0s xs guesses).get? k
      = some (rollout modelApply params mlpApply mlp_params a x g) := by
  have hz : (y0s.zip (xs.zip guesses)).get? k = some (a, (x, g)) := by
    rw [List.get?_zip_eq_some]
    exact ⟨hy, by rw [List.get?_zip_eq_some]; exact ⟨hx, hg⟩⟩
  unfold rollout_batch
  rw [List.get?_map, hz]
  rfl

theorem C3_witness :
    (rollout_batch Ex.exStep (1 : ℚ) Ex.exReadout (0 : ℚ)
        [0] [[1, 1]] [[0, 0]]).get? 0
      = some (rollout Ex.exStep (1 : ℚ) Ex.exReadout (0 : ℚ) (0 : ℚ) [1, 1] [0, 0]) :=
  C3_batch_independence Ex.exStep 1 Ex.exReadout 0 [0] [[1, 1]] [[0, 0]] 0
    0 [1, 1] [0, 0] rfl rfl rfl

/-- C8: for every method string other than `"deer_rnn"`, `rollout` raises
`NotImplementedError` before producing any output; for `"deer_rnn"` it takes
the solver branch and does not raise on dispatch. -/
theorem C8_method_dispatch [DecidableEq S]
    (modelApply : P → S → I → S × S) (params : P) (mlpApply : Q → S → O)
    (mlp_params : Q) (y0 : S) (inputs : List I) (yinit_guess : List S) :
    (∀ method : String, method ≠ "deer_rnn" →
        rollout modelApply params mlpApply mlp_params y0 inputs yinit_guess method
          = Except.error RolloutError.notImplementedError)
      ∧ ∃ out T,
          rollout modelApply params mlpApply mlp_params y0 inputs yinit_guess
              "deer_rnn"
            = Except.ok (out, T) := by
  constructor
  · intro method hm
    simp [rollout, hm]
  · exact ⟨_, _,
      rollout_deer_rnn modelApply params mlpApply mlp_params y0 inputs yinit_guess⟩

theorem C8_witness :
    rollout Ex.exStep (1 : ℚ) Ex.exReadout (0 : ℚ) (0 : ℚ) [1] [0] "deer"
      = Except.error RolloutError.notImplementedError :=
  (C8_method_dispatch Ex.exStep 1 Ex.exReadout 0 0 [1] [0]).1 "deer" (by decide)

/-- C4: the loss is the batch mean of the softmax cross-entropy between the
batched rollout logits and the integer labels, and the parameters returned by
`update_step` are the optimizer update of both the step-function parameters
and the readout parameters using the gradient of exactly this loss (the
`loss_fn` closure at the entry parameters) with respect to both parameter
sets. -/
theorem C4_loss_and_gradient_update [DecidableEq S]
    (modelApply : P → S → I → S × S) (mlpApply : Q → S → List ℚ)
    (optimizer : GradientTransformation P Q Ost)
    (applyUpdates : CombinedParams P Q → CombinedParams P Q → CombinedParams P Q)
    (gradOf : (P → Q → Except RolloutError (ℚ × (ℚ × List (List S)))) → P → Q → P × Q)
    (sce : List ℚ → Nat → ℚ) (combined_params : CombinedParams P Q)
    (opt_state : Ost) (batch : List (List I) × List Nat) (y0 : List S)
    (all_yinit_guess : List (List S)) (method : String) :
    update_step modelApply mlpApply optimizer applyUpdates gradOf sce
        combined_params opt_state batch y0 all_yinit_guess method
      = Except.ok
          (applyUpdates combined_params
            (optimizer.update
              ⟨(gradOf
                  (fun p q => loss_fn modelApply p mlpApply q y0 batch
                    all_yinit_guess sce method)
                  combined_params.params combined_params.mlp_params).1,
               (gradOf
                  (fun p q => loss_fn modelApply p mlpApply q y0 batch
                    all_yinit_guess sce method)
                  combined_params.params combined_params.mlp_params).2⟩
              opt_state).1,
           (optimizer.update
              ⟨(gradOf
                  (fun p q => loss_fn modelApply p mlpApply q y0 batch
                    all_yinit_guess sce method)
                  combined_params.params combined_params.mlp_params).1,
               (gradOf
                  (fun p q => loss_fn modelApply p mlpApply q y0 batch
                    all_yinit_guess sce method)
                  combined_params.params combined_params.mlp_params).2⟩
              opt_state).2,
           listMean
             (((batch_logits modelApply combined_params.params mlpApply
                 combined_params.mlp_params y0 batch.1 all_yinit_guess).zip
                 batch.2).map (fun z => sce z.1 z.2)),
           (compute_metrics sce
              (batch_logits modelApply combined_params.params mlpApply
                combined_params.mlp_params y0 batch.1 all_yinit_guess)
              batch.2).2,
           batch_trajectories modelApply combined_params.params y0 batch.1
             all_yinit_guess) := by
  rw [update_step_eq]
  rfl

/-- C9: the loss and accuracy returned by `update_step` are computed from
logits produced with the parameters as they were at entry to the call (before
the optimizer update applied within the same call), and the accuracy is the
batch mean of the indicator that the argmax of the logits equals the integer
label. -/
theorem C9_metrics_from_entry_params [DecidableEq S]
    (modelApply : P → S → I → S × S) (mlpApply : Q → S → List ℚ)
    (optimizer : GradientTransformation P Q Ost)
    (applyUpdates : CombinedParams P Q → CombinedParams P Q → CombinedParams P Q)
    (gradOf : (P → Q → Except RolloutError (ℚ × (ℚ × List (List S)))) → P → Q → P × Q)
    (sce : List ℚ → Nat → ℚ) (combined_params : CombinedParams P Q)
    (opt_state : Ost) (batch : List (List I) × List Nat) (y0 : List S)
    (all_yinit_guess : List (List S)) (method : String)
    (new_params : CombinedParams P Q) (new_opt_state : Ost)
    (loss accuracy : ℚ) (traj : List (List S))
    (h : update_step modelApply mlpApply optimizer applyUpdates gradOf sce
        combined_params opt_state batch y0 all_yinit_guess method
      = Except.ok (new_params, new_opt_state, loss, accuracy, traj)) :
    loss = (compute_metrics sce
        (batch_logits modelApply combined_params.params mlpApply
          combined_params.mlp_params y0 batch.1 all_yinit_guess) batch.2).1
    ∧ accuracy = listMean
        (((batch_logits modelApply combined_params.params mlpApply
            combined_params.mlp_params y0 batch.1 all_yinit_guess).zip
            batch.2).map (fun z => if argmax z.1 = z.2 then (1 : ℚ) else 0)) := by
  rw [update_step_eq] at h
  simp only [Except.ok.injEq, Prod.mk.injEq] at h
  exact ⟨h.2.2.1.symm, h.2.2.2.1.symm⟩

/-- C5: the warm-start array carried into the next iteration of the training
loop equals exactly the trajectories produced by the batched rollout during
this step's forward pass, computed with the pre-update parameters,
overwriting the previous contents unconditionally. -/
theorem C5_warm_start_propagation
    (modelApply : P → List ℚ → List ℚ → List ℚ × List ℚ)
    (mlpApply : Q → List ℚ → List ℚ)
    (optimizer : GradientTransformation P Q Ost)
    (applyUpdates : CombinedParams P Q → CombinedParams P Q → CombinedParams P Q)
    (gradOf : (P → Q → Except RolloutError (ℚ × (ℚ × List (List (List ℚ))))) → P → Q → P × Q)
    (sce : List ℚ → Nat → ℚ) (argsMethod : String) (batch_size nstates : Nat)
    (st : TrainState P Q Ost) (b : List (List (List ℚ)) × List Nat)
    (st2 : TrainState P Q Ost) (loss accuracy : ℚ)
    (h : train_step modelApply mlpApply optimizer applyUpdates gradOf sce
        argsMethod batch_size nstates st b = Except.ok (st2, loss, accuracy)) :
    st2.yinit_guess
      = batch_trajectories modelApply st.combined_params.params
          (zeros2 batch_size nstates) b.1 st.yinit_guess := by
  rw [train_step_eq] at h
  simp only [Except.ok.injEq, Prod.mk.injEq] at h
  rw [← h.1]

/-- C7: the initial state passed to the solver for every example of every
training step is the zero vector of shape `(nstates,)`: slot `k`'s trajectory
is solved from `List.replicate nstates 0`, with the warm-start guess the only
per-example datum threaded into the solve. -/
theorem C7_zero_initial_state
    (modelApply : P → List ℚ → List ℚ → List ℚ × List ℚ)
    (mlpApply : Q → List ℚ → List ℚ)
    (optimizer : GradientTransformation P Q Ost)
    (applyUpdates : CombinedParams P Q → CombinedParams P Q → CombinedParams P Q)
    (gradOf : (P → Q → Except RolloutError (ℚ × (ℚ × List (List (List ℚ))))) → P → Q → P × Q)
    (sce : List ℚ → Nat → ℚ) (argsMethod : String) (batch_size nstates : Nat)
    (st : TrainState P Q Ost) (b : List (List (List ℚ)) × List Nat)
    (st2 : TrainState P Q Ost) (loss accuracy : ℚ) (k : Nat)
    (x : List (List ℚ)) (g : List (List ℚ))
    (h : train_step modelApply mlpApply optimizer applyUpdates gradOf sce
        argsMethod batch_size nstates st b = Except.ok (st2, loss, accuracy))
    (hk : k < batch_size) (hx : b.1.get? k = some x)
    (hg : st.yinit_guess.get? k = some g) :
    st2.yinit_guess.get? k
      = some (seq1d (model_func modelApply) (List.replicate nstates (0 : ℚ)) x
          st.combined_params.params g) := by
  rw [train_step_eq] at h
  simp only [Except.ok.injEq, Prod.mk.injEq] at h
  rw [← h.1]
  have hy : (zeros2 batch_size nstates).get? k = some (zeros1 nstates) := by
    simp [zeros2, List.get?_eq_getElem?, List.getElem?_replicate, hk]
  have hz : ((zeros2 batch_size nstates).zip (b.1.zip st.yinit_guess)).get? k
      = some (zeros1 nstates, (x, g)) := by
    rw [List.get?_zip_eq_some]
    exact ⟨hy, by rw [List.get?_zip_eq_some]; exact ⟨hx, hg⟩⟩
  show (batch_trajectories modelApply st.combined_params.params
      (zeros2 batch_size nstates) b.1 st.yinit_guess).get? k = _
  unfold batch_trajectories
  rw [List.get?_map, hz]
  rfl

/-- C10: the training loop never forwards the parsed `--method` option to
`update_step`, so every rollout during training runs with the default method
`"deer_rnn"`: one training step never raises `NotImplementedError`, for every
configured method string, and its result does not depend on that string at
all. -/
theorem C10_method_unreachable
    (modelApply : P → List ℚ → List ℚ → List ℚ × List ℚ)
    (mlpApply : Q → List ℚ → List ℚ)
    (optimizer : GradientTransformation P Q Ost)
    (applyUpdates : CombinedParams P Q → CombinedParams P Q → CombinedParams P Q)
    (gradOf : (P → Q → Except RolloutError (ℚ × (ℚ × List (List (List ℚ))))) → P → Q → P × Q)
    (sce : List ℚ → Nat → ℚ) (argsMethod : String) (batch_size nstates : Nat)
    (st : TrainState P Q Ost) (b : List (List (List ℚ)) × List Nat) :
    (∃ st2 loss accuracy,
        train_step modelApply mlpApply optimizer applyUpdates gradOf sce
          argsMethod batch_size nstates st b = Except.ok (st2, loss, accuracy))
    ∧ ∀ m1 m2 : String,
        train_step modelApply mlpApply optimizer applyUpdates gradOf sce m1
            batch_size nstates st b
          = train_step modelApply mlpApply optimizer applyUpdates gradOf sce m2
              batch_size nstates st b := by
  constructor
  · exact ⟨_, _, _,
      train_step_eq modelApply mlpApply optimizer applyUpdates gradOf sce
        argsMethod batch_size nstates st b⟩
  · intro m1 m2
    rfl

/-- C6 amended: the initial guess supplied to the solver at a training step is
the warm-start array carried from the previous step — the trajectories the
previous step produced for the same batch slots, whatever examples the current
batch holds — and that array's capacity is (at most) the batch size. -/
theorem C6_amended_slot_carried_warm_start
    (modelApply : P → List ℚ → List ℚ → List ℚ × List ℚ)
    (mlpApply : Q → List ℚ → List ℚ)
    (optimizer : GradientTransformation P Q Ost)
    (applyUpdates : CombinedParams P Q → CombinedParams P Q → CombinedParams P Q)
    (gradOf : (P → Q → Except RolloutError (ℚ × (ℚ × List (List (List ℚ))))) → P → Q → P × Q)
    (sce : List ℚ → Nat → ℚ) (argsMethod : String) (batch_size nstates : Nat)
    (st st1 st2 : TrainState P Q Ost)
    (b1 b2 : List (List (List ℚ)) × List Nat) (l1 a1 l2 a2 : ℚ)
    (h1 : train_step modelApply mlpApply optimizer applyUpdates gradOf sce
        argsMethod batch_size nstates st b1 = Except.ok (st1, l1, a1))
    (h2 : train_step modelApply mlpApply optimizer applyUpdates gradOf sce
        argsMethod batch_size nstates st1 b2 = Except.ok (st2, l2, a2)) :
    st1.yinit_guess
        = batch_trajectories modelApply st.combined_params.params
            (zeros2 batch_size nstates) b1.1 st.yinit_guess
      ∧ st2.yinit_guess
          = batch_trajectories modelApply st1.combined_params.params
              (zeros2 batch_size nstates) b2.1 st1.yinit_guess
      ∧ st1.yinit_guess.length ≤ batch_size := by
  rw [train_step_eq] at h1 h2
  simp only [Except.ok.injEq, Prod.mk.injEq] at h1 h2
  refine ⟨by rw [← h1.1], by rw [← h2.1], ?_⟩
  rw [← h1.1]
  show (batch_trajectories modelApply st.combined_params.params
      (zeros2 batch_size nstates) b1.1 st.yinit_guess).length ≤ batch_size
  simp [batch_trajectories, zeros2]

theorem C6_amended_witness :
    (⟨⟨0, 0⟩, (), [[[1]]]⟩ : TrainState ℚ ℚ Unit).yinit_guess
        = batch_trajectories Ex.exStepV (0 : ℚ) (zeros2 1 1) [[[1]]]
            (zeros3 1 1 1)
      ∧ (⟨⟨0, 0⟩, (), [[[5]]]⟩ : TrainState ℚ ℚ Unit).yinit_guess
          = batch_trajectories Ex.exStepV (0 : ℚ) (zeros2 1 1) [[[5]]] [[[1]]]
      ∧ (⟨⟨0, 0⟩, (), [[[1]]]⟩ : TrainState ℚ ℚ Unit).yinit_guess.length ≤ 1 :=
  C6_amended_slot_carried_warm_start Ex.exStepV Ex.exReadoutV Ex.exOpt
    Ex.exApplyUpdates Ex.exGradOf Ex.exSce "deer" 1 1
    (init_train_state ⟨0, 0⟩ () 1 1 1) ⟨⟨0, 0⟩, (), [[[1]]]⟩
    ⟨⟨0, 0⟩, (), [[[5]]]⟩ ([[[1]]], [0]) ([[[5]]], [0]) 1 1 5 1
    (by norm_num [train_step, update_step, value_and_grad, loss_fn,
      rollout_batch, rollout, sequenceExcept, compute_metrics, listMean,
      argmax, argmaxAux, seq1d, seq1dIter, substAll, model_func,
      init_train_state, zeros3, zeros2, zeros1, Ex.exStepV, Ex.exReadoutV,
      Ex.exSce, Ex.exOpt, Ex.exApplyUpdates, Ex.exGradOf])
    (by norm_num [train_step, update_step, value_and_grad, loss_fn,
      rollout_batch, rollout, sequenceExcept, compute_metrics, listMean,
      argmax, argmaxAux, seq1d, seq1dIter, substAll, model_func,
      init_train_state, zeros3, zeros2, zeros1, Ex.exStepV, Ex.exReadoutV,
      Ex.exSce, Ex.exOpt, Ex.exApplyUpdates, Ex.exGradOf])

/-- C6 counterexample: with batch size 1, state width 1, sequence length 1,
run one training step on a batch holding example A (input `[[1]]`), then one
on a batch holding a different example B (input `[[5]]`).  The warm-start
array carried into the second step is `[[[1]]]` — example A's trajectory, not
the zero trajectory a never-solved example would have under the claimed
per-example cache — and it has one slot while the run touches two distinct
examples: the warm start is per batch slot, with capacity the batch size, not
per example with capacity the dataset size. -/
theorem C6_counterexample :
    train_step Ex.exStepV Ex.exReadoutV Ex.exOpt Ex.exApplyUpdates Ex.exGradOf
        Ex.exSce "deer" 1 1 (init_train_state ⟨0, 0⟩ () 1 1 1) ([[[1]]], [0])
      = Except.ok (⟨⟨0, 0⟩, (), [[[1]]]⟩, 1, 1)
    ∧ train_step Ex.exStepV Ex.exReadoutV Ex.exOpt Ex.exApplyUpdates Ex.exGradOf
        Ex.exSce "deer" 1 1 (⟨⟨0, 0⟩, (), [[[1]]]⟩ : TrainState ℚ ℚ Unit)
        ([[[5]]], [0])
      = Except.ok (⟨⟨0, 0⟩, (), [[[5]]]⟩, 5, 1)
    ∧ ([[[1]]] : List (List (List ℚ))) ≠ zeros3 1 1 1
    ∧ (zeros3 1 1 1).length = 1 := by
  refine ⟨?_, ?_, ?_, rfl⟩
  · norm_num [train_step, update_step, value_and_grad, loss_fn, rollout_batch,
      rollout, sequenceExcept, compute_metrics, listMean, argmax, argmaxAux,
      seq1d, seq1dIter, substAll, model_func, init_train_state, zeros3,
      zeros2, zeros1, Ex.exStepV, Ex.exReadoutV, Ex.exSce, Ex.exOpt,
      Ex.exApplyUpdates, Ex.exGradOf]
  · norm_num [train_step, update_step, value_and_grad, loss_fn, rollout_batch,
      rollout, sequenceExcept, compute_metrics, listMean, argmax, argmaxAux,
      seq1d, seq1dIter, substAll, model_func, init_train_state, zeros3,
      zeros2, zeros1, Ex.exStepV, Ex.exReadoutV, Ex.exSce, Ex.exOpt,
      Ex.exApplyUpdates, Ex.exGradOf]
  · norm_num [zeros3, zeros2, zeros1]

theorem C9_witness :
    (1 : ℚ) = (compute_metrics Ex.exSce
        (batch_logits Ex.exStepV (0 : ℚ) Ex.exReadoutV (0 : ℚ) [[0]] [[[1]]]
          [[[0]]]) [0]).1
    ∧ (1 : ℚ) = listMean
        (((batch_logits Ex.exStepV (0 : ℚ) Ex.exReadoutV (0 : ℚ) [[0]] [[[1]]]
            [[[0]]]).zip [0]).map
          (fun z => if argmax z.1 = z.2 then (1 : ℚ) else 0)) :=
  C9_metrics_from_entry_params Ex.exStepV Ex.exReadoutV Ex.exOpt
    Ex.exApplyUpdates Ex.exGradOf Ex.exSce ⟨0, 0⟩ () ([[[1]]], [0]) [[0]]
    [[[0]]] "deer_rnn" ⟨0, 0⟩ () 1 1 [[[1]]]
    (by norm_num [update_step, value_and_grad, loss_fn, rollout_batch,
      rollout, sequenceExcept, compute_metrics, listMean, argmax, argmaxAux,
      seq1d, seq1dIter, substAll, model_func, Ex.exStepV, Ex.exReadoutV,
      Ex.exSce, Ex.exOpt, Ex.exApplyUpdates, Ex.exGradOf])

theorem C5_witness :
    (⟨⟨0, 0⟩, (), [[[1]]]⟩ : TrainState ℚ ℚ Unit).yinit_guess
      = batch_trajectories Ex.exStepV (0 : ℚ) (zeros2 1 1) [[[1]]]
          (zeros3 1 1 1) :=
  C5_warm_start_propagation Ex.exStepV Ex.exReadoutV Ex.exOpt
    Ex.exApplyUpdates Ex.exGradOf Ex.exSce "deer" 1 1
    (init_train_state ⟨0, 0⟩ () 1 1 1) ([[[1]]], [0])
    ⟨⟨0, 0⟩, (), [[[1]]]⟩ 1 1
    (by norm_num [train_step, update_step, value_and_grad, loss_fn,
      rollout_batch, rollout, sequenceExcept, compute_metrics, listMean,
      argmax, argmaxAux, seq1d, seq1dIter, substAll, model_func,
      init_train_state, zeros3, zeros2, zeros1, Ex.exStepV, Ex.exReadoutV,
      Ex.exSce, Ex.exOpt, Ex.exApplyUpdates, Ex.exGradOf])

theorem C7_witness :
    (⟨⟨0, 0⟩, (), [[[1]]]⟩ : TrainState ℚ ℚ Unit).yinit_guess.get? 0
      = some (seq1d (model_func Ex.exStepV) (List.replicate 1 (0 : ℚ)) [[1]]
          (0 : ℚ) [[0]]) :=
  C7_zero_initial_state Ex.exStepV Ex.exReadoutV Ex.exOpt Ex.exApplyUpdates
    Ex.exGradOf Ex.exSce "deer" 1 1 (init_train_state ⟨0, 0⟩ () 1 1 1)
    ([[[1]]], [0]) ⟨⟨0, 0⟩, (), [[[1]]]⟩ 1 1 0 [[1]] [[0]]
    (by norm_num [train_step, update_step, value_and_grad, loss_fn,
      rollout_batch, rollout, sequenceExcept, compute_metrics, listMean,
      argmax, argmaxAux, seq1d, seq1dIter, substAll, model_func,
      init_train_state, zeros3, zeros2, zeros1, Ex.exStepV, Ex.exReadoutV,
      Ex.exSce, Ex.exOpt, Ex.exApplyUpdates, Ex.exGradOf])
    (by decide) rfl rfl

end Claims

end Deer
